import Mathlib

/-!
Shallow embedding of the session/event recording engine of the
desktop-activity-monitor repository (src/types.rs, src/monitor.rs).

Rust strings are Lean `String`; `Vec` is `List`; `i32` coordinates are
`Int` (no arithmetic is performed on them, so overflow is irrelevant);
timestamps produced by `Local::now()` are opaque `String` inputs supplied
per clock read.  The two CSV sinks are modelled as the logical lists of
rows they hold (`summary_rows`, `detailed_rows`); a fallible
write/serialize/flush call is modelled by an `Option String` input that
is `none` on success and `some e` when the call fails with error
message `e`.  Device sampling is modelled by passing the sampled key
list and pointer coordinates into each tick.  `device_query::Keycode`
values are represented directly by their `Debug` names (the `Debug`
rendering of the keycode enum is injective, so list equality of keycode
lists coincides with list equality of their name lists).
-/

namespace DesktopApp

/-- Rust `char` escaping as used by the `Debug` formatting of `str`:
quote and backslash are escaped, as are the common control characters.
Other characters (the key names produced by the program are ASCII
alphanumeric `Keycode` variant names) are rendered verbatim. -/
def escapeDebugChar (c : Char) : String :=
  if c = '"' then "\\\""
  else if c = '\\' then "\\\\"
  else if c = '\n' then "\\n"
  else if c = '\t' then "\\t"
  else if c = '\r' then "\\r"
  else if c = '\x00' then "\\0"
  else String.singleton c

/-- Body of the Rust `Debug` rendering of a string (the part between the
two added quotation marks). -/
def escapeDebugBody (s : String) : String :=
  String.join (s.toList.map escapeDebugChar)

/-- Rust `format!("\x7b:?\x7d", s)` for a string `s`: wraps the escaped
body in literal quotation marks. -/
def rustDebugString (s : String) : String :=
  "\"" ++ escapeDebugBody s ++ "\""

/-- Rust `Debug` rendering of a `Vec<String>`, used for the `details`
field of a keyboard `DetailedEvent`. -/
def listDebugString (l : List String) : String :=
  "[" ++ String.intercalate (", ") (l.map rustDebugString) ++ "]"

/-- Rust `Debug` rendering of an `(i32, i32)` pair, used for the
`details` field of a mouse `DetailedEvent`. -/
def pairDebugString (p : Int × Int) : String :=
  "(" ++ toString p.1 ++ ", " ++ toString p.2 ++ ")"

/-- Rust `task_name.trim().is_empty()`: the string contains nothing but
whitespace.  Trimming all whitespace from both ends leaves the empty
string exactly when every character is whitespace, so the blank check is
embedded directly as an all-whitespace test (which, unlike
`String.trim`, reduces in the kernel). -/
def isBlank (s : String) : Bool :=
  s.toList.all (fun c => c.isWhitespace)

/-- `enum Action` of src/types.rs. -/
inductive Action where
  | MouseMove (timestamp : String) (coords : Int × Int)
  | KeyPress (timestamp : String) (keys : List String)
deriving DecidableEq

/-- `Action::to_csv_string` of src/types.rs. -/
def Action.to_csv_string : Action → String
  | .MouseMove timestamp coords =>
      "\x7bmouse," ++ timestamp ++ ",(" ++ toString coords.1 ++ ","
        ++ toString coords.2 ++ ")\x7d"
  | .KeyPress timestamp keys =>
      "\x7bkey," ++ timestamp ++ ","
        ++ rustDebugString (String.intercalate ("+") keys) ++ "\x7d"

/-- `struct Session` of src/types.rs. -/
structure Session where
  session_id : String
  task_name : String
  start_time : String
  end_time : Option String
  actions : List Action
deriving DecidableEq

/-- `Session::to_csv_record` of src/types.rs. -/
def Session.to_csv_record (s : Session) : List String :=
  [s.session_id, s.task_name, s.start_time, s.end_time.getD (""),
   String.intercalate (";") (s.actions.map Action.to_csv_string)]

/-- `struct DetailedEvent` of src/types.rs. -/
structure DetailedEvent where
  timestamp : String
  task_name : String
  event_type : String
  details : String
  mouse_x : Int
  mouse_y : Int
deriving DecidableEq

/-- State of `struct ActivityMonitor` of src/monitor.rs.  The two csv
writers are replaced by the logical row lists they hold; the
`DeviceState` handle has no state of its own (samples arrive as tick
inputs). -/
structure ActivityMonitor where
  is_monitoring : Bool
  events_recorded : Bool
  status_text : String
  last_keys : List String
  last_mouse_pos : Int × Int
  current_session : Session
  task_name : String
  summary_rows : List (List String)
  detailed_rows : List DetailedEvent
deriving DecidableEq

/-- Header row written to the summary sink by `ActivityMonitor::new`. -/
def headerRow : List String :=
  ["session_id", "task_name", "start_time", "end_time", "actions"]

/-- `ActivityMonitor::new` of src/monitor.rs: the summary sink is
truncated and receives its header row, the detailed sink is truncated,
and the in-memory fields take their construction defaults.  `sid` and
`startTs` are the construction-time clock reads used for the
placeholder session. -/
def ActivityMonitor.new (sid startTs : String) : ActivityMonitor :=
  { is_monitoring := false
    events_recorded := false
    status_text := "Enter task name to start monitoring"
    last_keys := []
    last_mouse_pos := (0, 0)
    current_session :=
      { session_id := sid
        task_name := ""
        start_time := startTs
        end_time := none
        actions := [] }
    task_name := ""
    summary_rows := [headerRow]
    detailed_rows := [] }

/-- `ActivityMonitor::start_monitoring` of src/monitor.rs.  `sid` and
`startTs` are the two clock reads taken when a new session is built. -/
def ActivityMonitor.start_monitoring (s : ActivityMonitor)
    (sid startTs : String) : ActivityMonitor :=
  if s.is_monitoring then
    { s with status_text := "Already monitoring!" }
  else if isBlank s.task_name then
    { s with status_text := "Please enter a task name first" }
  else
    { s with
      current_session :=
        { session_id := sid
          task_name := s.task_name
          start_time := startTs
          end_time := none
          actions := [] }
      detailed_rows := []
      status_text := "Started monitoring task: " ++ s.task_name
      is_monitoring := true }

/-- Body of `ActivityMonitor::stop_monitoring` from the line that sets
the transient status message up to (and including) the write and flush
of the summary row, before the final status message is composed.
`writeErr`/`flushErr` are the outcomes of `write_record` and `flush` on
the summary sink. -/
def ActivityMonitor.stopPersist (s : ActivityMonitor) (now : String)
    (writeErr flushErr : Option String) : ActivityMonitor :=
  let s0 := { s with
    status_text := "Stopping monitoring..."
    is_monitoring := false
    current_session := { s.current_session with end_time := some now } }
  let record :=
    [s0.current_session.session_id,
     s0.current_session.task_name,
     s0.current_session.start_time,
     s0.current_session.end_time.getD (""),
     String.intercalate (";")
       (s0.current_session.actions.map Action.to_csv_string)]
  let s1 :=
    match writeErr with
    | some e => { s0 with status_text := "Error saving session: " ++ e }
    | none => { s0 with summary_rows := s0.summary_rows ++ [record] }
  match flushErr with
  | some e => { s1 with status_text := "Error flushing session data: " ++ e }
  | none => s1

/-- `ActivityMonitor::stop_monitoring` of src/monitor.rs: early return
while Idle; otherwise persist the finalized session and then set the
final status message from the `events_recorded` flag. -/
def ActivityMonitor.stop_monitoring (s : ActivityMonitor) (now : String)
    (writeErr flushErr : Option String) : ActivityMonitor :=
  if !s.is_monitoring then
    { s with status_text := "Monitoring is not running" }
  else
    let s1 := s.stopPersist now writeErr flushErr
    { s1 with status_text :=
        if s1.events_recorded then
          "Monitoring stopped for task: " ++ s1.task_name
            ++ ". Activities were recorded."
        else
          "Monitoring stopped for task: " ++ s1.task_name
            ++ ". No activities were recorded." }

/-- Inputs consumed by one `ActivityMonitor::update` tick: the sampled
key list (`get_keys`), the two mouse samples (`get_mouse` is called once
inside the keyboard branch and once for the mouse check), the clock
reads taken inside each branch, and the outcomes of the two possible
`serialize` calls on the detailed sink. -/
structure TickInput where
  keys : List String
  keyTs : String
  mouseAtKey : Int × Int
  mouse : Int × Int
  mouseTs : String
  keySerializeErr : Option String
  mouseSerializeErr : Option String
deriving DecidableEq

/-- `ActivityMonitor::update` of src/monitor.rs.  A failed `flush` on
the detailed sink only prints to stderr and touches no state, so it is
not modelled. -/
def ActivityMonitor.update (s : ActivityMonitor) (inp : TickInput) :
    ActivityMonitor :=
  if !s.is_monitoring then s
  else
    let s1 :=
      if inp.keys ≠ s.last_keys then
        let action := Action.KeyPress inp.keyTs inp.keys
        let sess := { s.current_session with
          actions := s.current_session.actions ++ [action] }
        let ev : DetailedEvent :=
          { timestamp := inp.keyTs
            task_name := s.task_name
            event_type := "keyboard"
            details := listDebugString inp.keys
            mouse_x := inp.mouseAtKey.1
            mouse_y := inp.mouseAtKey.2 }
        match inp.keySerializeErr with
        | some e =>
            { s with
              current_session := sess
              status_text := "Error: " ++ e
              last_keys := inp.keys }
        | none =>
            { s with
              current_session := sess
              detailed_rows := s.detailed_rows ++ [ev]
              events_recorded := true
              status_text := "Task: " ++ s.task_name ++ " - Keyboard: "
                ++ listDebugString inp.keys
              last_keys := inp.keys }
      else s
    if inp.mouse ≠ s1.last_mouse_pos then
      let action := Action.MouseMove inp.mouseTs inp.mouse
      let sess := { s1.current_session with
        actions := s1.current_session.actions ++ [action] }
      let ev : DetailedEvent :=
        { timestamp := inp.mouseTs
          task_name := s1.task_name
          event_type := "mouse_move"
          details := "Moved to " ++ pairDebugString inp.mouse
          mouse_x := inp.mouse.1
          mouse_y := inp.mouse.2 }
      match inp.mouseSerializeErr with
      | some e =>
          { s1 with
            current_session := sess
            status_text := "Error: " ++ e
            last_mouse_pos := inp.mouse }
      | none =>
          { s1 with
            current_session := sess
            detailed_rows := s1.detailed_rows ++ [ev]
            events_recorded := true
            status_text := "Task: " ++ s1.task_name ++ " - Mouse: ("
              ++ toString inp.mouse.1 ++ ", " ++ toString inp.mouse.2 ++ ")"
            last_mouse_pos := inp.mouse }
    else s1

/-- One externally driven entry into the engine: editing the staged
task name in the UI text field (only possible while not monitoring —
the field is read-only while monitoring), clicking start or stop, or
one redraw-driven tick. -/
inductive Op where
  | setTask (name : String)
  | start (sid startTs : String)
  | stop (now : String) (writeErr flushErr : Option String)
  | tick (inp : TickInput)
deriving DecidableEq

/-- Whether an operation is a start click. -/
def Op.isStart : Op → Bool
  | .start _ _ => true
  | _ => false

/-- One step of the engine under an external operation. -/
def step (s : ActivityMonitor) : Op → ActivityMonitor
  | .setTask name => if s.is_monitoring then s else { s with task_name := name }
  | .start sid startTs => s.start_monitoring sid startTs
  | .stop now writeErr flushErr => s.stop_monitoring now writeErr flushErr
  | .tick inp => s.update inp

/-- Running a sequence of operations from a state. -/
def run (s : ActivityMonitor) (ops : List Op) : ActivityMonitor :=
  ops.foldl step s

/-- The keyboard `DetailedEvent` built by the keyboard branch of
`ActivityMonitor::update`. -/
def tickKeyEvent (s : ActivityMonitor) (inp : TickInput) : DetailedEvent :=
  { timestamp := inp.keyTs
    task_name := s.task_name
    event_type := "keyboard"
    details := listDebugString inp.keys
    mouse_x := inp.mouseAtKey.1
    mouse_y := inp.mouseAtKey.2 }

/-- The mouse `DetailedEvent` built by the mouse branch of
`ActivityMonitor::update`. -/
def tickMouseEvent (s : ActivityMonitor) (inp : TickInput) : DetailedEvent :=
  { timestamp := inp.mouseTs
    task_name := s.task_name
    event_type := "mouse_move"
    details := "Moved to " ++ pairDebugString inp.mouse
    mouse_x := inp.mouse.1
    mouse_y := inp.mouse.2 }

/-- The detailed-sink rows appended by one tick: the keyboard row when
the key set changed and its serialize call succeeded, then the mouse
row when the pointer moved and its serialize call succeeded. -/
def tickDetailedRows (s : ActivityMonitor) (inp : TickInput) :
    List DetailedEvent :=
  if s.is_monitoring then
    (if inp.keys ≠ s.last_keys ∧ inp.keySerializeErr = none
      then [tickKeyEvent s inp] else [])
    ++ (if inp.mouse ≠ s.last_mouse_pos ∧ inp.mouseSerializeErr = none
      then [tickMouseEvent s inp] else [])
  else []

/-- The detailed-sink rows appended by one operation: only ticks append
to the detailed sink. -/
def opDetailedRows (s : ActivityMonitor) : Op → List DetailedEvent
  | .tick inp => tickDetailedRows s inp
  | _ => []

/-- The detailed-sink rows produced while running a sequence of
operations from a state. -/
def producedRows (s : ActivityMonitor) : List Op → List DetailedEvent
  | [] => []
  | op :: ops => opDetailedRows s op ++ producedRows (step s op) ops

/-- Splitting a string on the semicolon separator, with the semantics
of Rust `str::split` on a single-character pattern (splitting the empty
string yields one empty piece). -/
def splitSemi (s : String) : List String :=
  (s.data.splitOn (';')).map (fun l => String.mk l)

/-- A freshly started session with no recorded actions, as
`start_monitoring` builds it. -/
def sampleSession : Session :=
  { session_id := "20240101_120000"
    task_name := "build"
    start_time := "2024-01-01T12:00:00+05:30"
    end_time := none
    actions := [] }

/-- A session holding a single recorded action. -/
def sampleSessionOne : Session :=
  { sampleSession with actions := [Action.MouseMove ("tm") (1, 2)] }

/-- An engine state in the Monitoring state, just after a first
successful start, with no events recorded yet. -/
def sampleMonitoring : ActivityMonitor :=
  { is_monitoring := true
    events_recorded := false
    status_text := "Started monitoring task: build"
    last_keys := []
    last_mouse_pos := (0, 0)
    current_session := sampleSession
    task_name := "build"
    summary_rows := [headerRow]
    detailed_rows := [] }

/-- A leftover detailed-sink row from an earlier session. -/
def sampleOldRow : DetailedEvent :=
  { timestamp := "t0"
    task_name := "old"
    event_type := "keyboard"
    details := "[\"A\"]"
    mouse_x := 1
    mouse_y := 2 }

/-- An engine state in the Idle state between two sessions: a task name
is staged, a detailed row from the previous session is still in the
detailed sink, and the detector snapshot holds the values left by the
previous session's last tick. -/
def sampleIdle : ActivityMonitor :=
  { ActivityMonitor.new ("sid0") ("ts0") with
    task_name := "build"
    detailed_rows := [sampleOldRow]
    last_keys := ["A"]
    last_mouse_pos := (3, 4) }

/-- A tick input on which both detector checks fire and both serialize
calls succeed. -/
def sampleTick : TickInput :=
  { keys := ["B"]
    keyTs := "t1"
    mouseAtKey := (5, 6)
    mouse := (5, 6)
    mouseTs := "t2"
    keySerializeErr := none
    mouseSerializeErr := none }

/-- The same tick input with a failing serialize call on the keyboard
detailed row. -/
def sampleTickKeyFail : TickInput :=
  { sampleTick with keySerializeErr := some "disk full" }

/-- A two-session run: the first session records one keyboard event and
stops; the second session starts and stops without recording anything. -/
def twoSessionOps : List Op :=
  [Op.setTask "alpha",
   Op.start "sidA" "tsA",
   Op.tick { keys := ["A"], keyTs := "t1", mouseAtKey := (0, 0),
             mouse := (0, 0), mouseTs := "t2",
             keySerializeErr := none, mouseSerializeErr := none },
   Op.stop "te1" none none,
   Op.setTask "beta",
   Op.start "sidB" "tsB",
   Op.stop "te2" none none]

/-! Helper lemmas characterizing each transition of the engine. -/

theorem update_not_monitoring (s : ActivityMonitor) (inp : TickInput)
    (hm : s.is_monitoring = false) : s.update inp = s := by
  unfold ActivityMonitor.update
  rw [hm]
  simp

theorem update_current_session (s : ActivityMonitor) (inp : TickInput)
    (hm : s.is_monitoring = true) :
    (s.update inp).current_session =
      { s.current_session with actions := s.current_session.actions
          ++ (if inp.keys ≠ s.last_keys
              then [Action.KeyPress inp.keyTs inp.keys] else [])
          ++ (if inp.mouse ≠ s.last_mouse_pos
              then [Action.MouseMove inp.mouseTs inp.mouse] else []) } := by
  unfold ActivityMonitor.update
  rw [hm]
  by_cases hk : inp.keys = s.last_keys <;>
    by_cases hp : inp.mouse = s.last_mouse_pos <;>
      rcases hke : inp.keySerializeErr with _ | e1 <;>
        rcases hme : inp.mouseSerializeErr with _ | e2 <;>
          simp [hk, hp, hke, hme, List.append_assoc]

theorem update_last_keys (s : ActivityMonitor) (inp : TickInput)
    (hm : s.is_monitoring = true) :
    (s.update inp).last_keys =
      (if inp.keys ≠ s.last_keys then inp.keys else s.last_keys) := by
  unfold ActivityMonitor.update
  rw [hm]
  by_cases hk : inp.keys = s.last_keys <;>
    by_cases hp : inp.mouse = s.last_mouse_pos <;>
      rcases hke : inp.keySerializeErr with _ | e1 <;>
        rcases hme : inp.mouseSerializeErr with _ | e2 <;>
          simp [hk, hp, hke, hme]

theorem update_last_mouse_pos (s : ActivityMonitor) (inp : TickInput)
    (hm : s.is_monitoring = true) :
    (s.update inp).last_mouse_pos =
      (if inp.mouse ≠ s.last_mouse_pos then inp.mouse else s.last_mouse_pos) := by
  unfold ActivityMonitor.update
  rw [hm]
  by_cases hk : inp.keys = s.last_keys <;>
    by_cases hp : inp.mouse = s.last_mouse_pos <;>
      rcases hke : inp.keySerializeErr with _ | e1 <;>
        rcases hme : inp.mouseSerializeErr with _ | e2 <;>
          simp [hk, hp, hke, hme]

theorem update_is_monitoring (s : ActivityMonitor) (inp : TickInput) :
    (s.update inp).is_monitoring = s.is_monitoring := by
  unfold ActivityMonitor.update
  cases hm : s.is_monitoring <;>
    by_cases hk : inp.keys = s.last_keys <;>
      by_cases hp : inp.mouse = s.last_mouse_pos <;>
        rcases hke : inp.keySerializeErr with _ | e1 <;>
          rcases hme : inp.mouseSerializeErr with _ | e2 <;>
            simp [hm, hk, hp, hke, hme]

theorem update_summary_rows (s : ActivityMonitor) (inp : TickInput) :
    (s.update inp).summary_rows = s.summary_rows := by
  unfold ActivityMonitor.update
  cases hm : s.is_monitoring <;>
    by_cases hk : inp.keys = s.last_keys <;>
      by_cases hp : inp.mouse = s.last_mouse_pos <;>
        rcases hke : inp.keySerializeErr with _ | e1 <;>
          rcases hme : inp.mouseSerializeErr with _ | e2 <;>
            simp [hk, hp, hke, hme]

theorem update_detailed_rows (s : ActivityMonitor) (inp : TickInput) :
    (s.update inp).detailed_rows =
      s.detailed_rows ++ tickDetailedRows s inp := by
  unfold ActivityMonitor.update tickDetailedRows
  cases hm : s.is_monitoring <;>
    by_cases hk : inp.keys = s.last_keys <;>
      by_cases hp : inp.mouse = s.last_mouse_pos <;>
        rcases hke : inp.keySerializeErr with _ | e1 <;>
          rcases hme : inp.mouseSerializeErr with _ | e2 <;>
            simp [hm, hk, hp, hke, hme, tickKeyEvent, tickMouseEvent]

theorem start_of_monitoring (s : ActivityMonitor) (sid startTs : String)
    (hm : s.is_monitoring = true) :
    s.start_monitoring sid startTs =
      { s with status_text := "Already monitoring!" } := by
  unfold ActivityMonitor.start_monitoring
  rw [hm]
  simp

theorem start_of_blank (s : ActivityMonitor) (sid startTs : String)
    (hm : s.is_monitoring = false) (hb : isBlank s.task_name = true) :
    s.start_monitoring sid startTs =
      { s with status_text := "Please enter a task name first" } := by
  unfold ActivityMonitor.start_monitoring
  rw [hm, hb]
  simp

theorem start_success (s : ActivityMonitor) (sid startTs : String)
    (hm : s.is_monitoring = false) (hb : isBlank s.task_name = false) :
    s.start_monitoring sid startTs =
      { s with
        current_session :=
          { session_id := sid
            task_name := s.task_name
            start_time := startTs
            end_time := none
            actions := [] }
        detailed_rows := []
        status_text := "Started monitoring task: " ++ s.task_name
        is_monitoring := true } := by
  unfold ActivityMonitor.start_monitoring
  rw [hm, hb]
  simp

theorem stop_of_idle (s : ActivityMonitor) (now : String)
    (writeErr flushErr : Option String) (hm : s.is_monitoring = false) :
    s.stop_monitoring now writeErr flushErr =
      { s with status_text := "Monitoring is not running" } := by
  unfold ActivityMonitor.stop_monitoring
  rw [hm]
  simp

theorem stopPersist_is_monitoring (s : ActivityMonitor) (now : String)
    (writeErr flushErr : Option String) :
    (s.stopPersist now writeErr flushErr).is_monitoring = false := by
  unfold ActivityMonitor.stopPersist
  rcases writeErr with _ | e1 <;> rcases flushErr with _ | e2 <;> simp

theorem stopPersist_current_session (s : ActivityMonitor) (now : String)
    (writeErr flushErr : Option String) :
    (s.stopPersist now writeErr flushErr).current_session =
      { s.current_session with end_time := some now } := by
  unfold ActivityMonitor.stopPersist
  rcases writeErr with _ | e1 <;> rcases flushErr with _ | e2 <;> simp

theorem stopPersist_events_recorded (s : ActivityMonitor) (now : String)
    (writeErr flushErr : Option String) :
    (s.stopPersist now writeErr flushErr).events_recorded =
      s.events_recorded := by
  unfold ActivityMonitor.stopPersist
  rcases writeErr with _ | e1 <;> rcases flushErr with _ | e2 <;> simp

theorem stopPersist_task_name (s : ActivityMonitor) (now : String)
    (writeErr flushErr : Option String) :
    (s.stopPersist now writeErr flushErr).task_name = s.task_name := by
  unfold ActivityMonitor.stopPersist
  rcases writeErr with _ | e1 <;> rcases flushErr with _ | e2 <;> simp

theorem stopPersist_detailed_rows (s : ActivityMonitor) (now : String)
    (writeErr flushErr : Option String) :
    (s.stopPersist now writeErr flushErr).detailed_rows =
      s.detailed_rows := by
  unfold ActivityMonitor.stopPersist
  rcases writeErr with _ | e1 <;> rcases flushErr with _ | e2 <;> simp

theorem stopPersist_summary_rows_ok (s : ActivityMonitor) (now : String)
    (flushErr : Option String) :
    (s.stopPersist now none flushErr).summary_rows =
      s.summary_rows
        ++ [({ s.current_session with end_time := some now }).to_csv_record] := by
  unfold ActivityMonitor.stopPersist Session.to_csv_record
  rcases flushErr with _ | e2 <;> simp

theorem stopPersist_summary_rows_err (s : ActivityMonitor) (now e : String)
    (flushErr : Option String) :
    (s.stopPersist now (some e) flushErr).summary_rows = s.summary_rows := by
  unfold ActivityMonitor.stopPersist
  rcases flushErr with _ | e2 <;> simp

theorem stopPersist_status_of_writeErr (s : ActivityMonitor) (now e : String) :
    (s.stopPersist now (some e) none).status_text =
      "Error saving session: " ++ e := by
  unfold ActivityMonitor.stopPersist
  simp

theorem stopPersist_status_of_flushErr (s : ActivityMonitor) (now e : String)
    (writeErr : Option String) :
    (s.stopPersist now writeErr (some e)).status_text =
      "Error flushing session data: " ++ e := by
  unfold ActivityMonitor.stopPersist
  rcases writeErr with _ | e1 <;> simp

theorem stop_of_monitoring (s : ActivityMonitor) (now : String)
    (writeErr flushErr : Option String) (hm : s.is_monitoring = true) :
    s.stop_monitoring now writeErr flushErr =
      { s.stopPersist now writeErr flushErr with status_text :=
          if s.events_recorded then
            "Monitoring stopped for task: " ++ s.task_name
              ++ ". Activities were recorded."
          else
            "Monitoring stopped for task: " ++ s.task_name
              ++ ". No activities were recorded." } := by
  unfold ActivityMonitor.stop_monitoring
  rw [hm]
  simp [stopPersist_events_recorded, stopPersist_task_name]

theorem stop_detailed_rows (s : ActivityMonitor) (now : String)
    (writeErr flushErr : Option String) :
    (s.stop_monitoring now writeErr flushErr).detailed_rows =
      s.detailed_rows := by
  cases hm : s.is_monitoring with
  | false => rw [stop_of_idle s now writeErr flushErr hm]
  | true =>
      rw [stop_of_monitoring s now writeErr flushErr hm]
      exact stopPersist_detailed_rows s now writeErr flushErr

theorem run_nil (s : ActivityMonitor) : run s [] = s := rfl

theorem run_cons (s : ActivityMonitor) (op : Op) (ops : List Op) :
    run s (op :: ops) = run (step s op) ops := rfl

theorem step_detailed_rows_of_not_start (s : ActivityMonitor) (op : Op)
    (h : op.isStart = false) :
    (step s op).detailed_rows = s.detailed_rows ++ opDetailedRows s op := by
  cases op with
  | setTask n => cases hm : s.is_monitoring <;> simp [step, opDetailedRows, hm]
  | start sid startTs => simp [Op.isStart] at h
  | stop now writeErr flushErr =>
      simp [step, opDetailedRows, stop_detailed_rows]
  | tick inp => simp [step, opDetailedRows, update_detailed_rows]

theorem run_detailed_rows_of_no_start (ops : List Op) :
    ∀ (s : ActivityMonitor), (∀ op ∈ ops, op.isStart = false) →
      (run s ops).detailed_rows = s.detailed_rows ++ producedRows s ops := by
  induction ops with
  | nil => intro s _; simp [run, producedRows]
  | cons op ops ih =>
      intro s h
      rw [run_cons, ih _ (fun o ho => h o (List.mem_cons_of_mem _ ho)),
          step_detailed_rows_of_not_start s op (h op (List.mem_cons_self _ _)),
          producedRows, List.append_assoc]

/-! Bridge between `String.intercalate` (the embedding of Rust
`Vec::join`) and `List.intercalate` on character lists. -/

theorem intercalate_cons_cons {α : Type} (sep a b : List α)
    (l : List (List α)) :
    List.intercalate sep (a :: b :: l) =
      a ++ sep ++ List.intercalate sep (b :: l) := by
  simp [List.intercalate, List.intersperse]

theorem intercalate_go_data (s : String) : ∀ (as : List String) (a : String),
    (String.intercalate.go a s as).data =
      List.intercalate s.data (a.data :: as.map String.data)
  | [], a => by simp [String.intercalate.go, List.intercalate]
  | b :: as, a => by
    rw [String.intercalate.go, intercalate_go_data s as (a ++ s ++ b)]
    rw [show (a ++ s ++ b).data = a.data ++ s.data ++ b.data by
      simp [String.data_append]]
    rw [List.map_cons, intercalate_cons_cons]
    cases as <;> simp [List.intercalate, List.intersperse]

theorem intercalate_data (s : String) (l : List String) :
    (String.intercalate s l).data =
      List.intercalate s.data (l.map String.data) := by
  cases l with
  | nil => rfl
  | cons a as => rw [String.intercalate, intercalate_go_data]; rfl

/-! The claims. -/

/-- Claim C2: for every Action, the render function produces exactly
the canonical encoding: a pointer move renders as
`\x7bmouse,<timestamp>,(<x>,<y>)\x7d`, and a key press renders as
`\x7bkey,<timestamp>,"<k1+k2+...>"\x7d` where the key names are joined
with a plus sign and the joined string is passed through debug-style
quoting that wraps it in quotation marks and escapes quote and
backslash characters inside it. -/
theorem claim_c2 (ts : String) (keys : List String) (coords : Int × Int) :
    Action.to_csv_string (Action.MouseMove ts coords) =
      "\x7bmouse," ++ ts ++ ",(" ++ toString coords.1 ++ ","
        ++ toString coords.2 ++ ")\x7d"
    ∧ Action.to_csv_string (Action.KeyPress ts keys) =
      "\x7bkey," ++ ts ++ ","
        ++ rustDebugString (String.intercalate ("+") keys) ++ "\x7d"
    ∧ (∀ j : String, rustDebugString j = "\"" ++ escapeDebugBody j ++ "\"")
    ∧ escapeDebugChar ('"') = "\\\""
    ∧ escapeDebugChar ('\\') = "\\\\" :=
  ⟨rfl, rfl, fun _ => rfl, rfl, rfl⟩

/-- Claim C9 (counterexample): for a session with zero actions the
joined actions field is the empty string, and splitting it on the
semicolon separator yields one (empty) piece, not zero pieces, so the
count of pieces differs from the count of recorded actions. -/
theorem claim_c9_counterexample :
    (splitSemi (sampleSession.to_csv_record.getD 4 (""))).length ≠
      sampleSession.actions.length := by
  decide

/-- Claim C9 (amended): for every session with at least one action,
none of whose action renderings contains a semicolon, splitting the
actions field of its summary record on the semicolon separator yields
exactly the list of Action renderings, and in particular exactly as
many renderings as there are actions; a session with zero actions
instead yields a single empty piece. -/
theorem claim_c9 (sess : Session) (h1 : sess.actions ≠ [])
    (h2 : ∀ a ∈ sess.actions, (';') ∉ (Action.to_csv_string a).data) :
    splitSemi (sess.to_csv_record.getD 4 ("")) =
      sess.actions.map Action.to_csv_string
    ∧ (splitSemi (sess.to_csv_record.getD 4 (""))).length =
        sess.actions.length := by
  have hcol : sess.to_csv_record.getD 4 ("") =
      String.intercalate (";") (sess.actions.map Action.to_csv_string) := rfl
  have key : splitSemi
      (String.intercalate (";") (sess.actions.map Action.to_csv_string)) =
      sess.actions.map Action.to_csv_string := by
    unfold splitSemi
    rw [intercalate_data]
    rw [show (String.mk [';']).data = [(';')] from rfl]
    rw [show List.intercalate [(';')]
          ((sess.actions.map Action.to_csv_string).map String.data) =
        List.intercalate ([(';')] : List Char)
          ((sess.actions.map Action.to_csv_string).map String.data) from rfl]
    rw [List.splitOn_intercalate _ (';')
      (by
        intro l hl
        rcases List.mem_map.mp hl with ⟨str, hstr, rfl⟩
        rcases List.mem_map.mp hstr with ⟨a, ha, rfl⟩
        exact h2 a ha)
      (by simp [h1])]
    rw [List.map_map]
    rw [show ((fun l => String.mk l) ∘ String.data) = id from
      funext (fun str => rfl)]
    rw [List.map_id]
  exact ⟨by rw [hcol, key], by rw [hcol, key, List.length_map]⟩

/-- Claim C9 (witness): the amended round-trip evaluated on a concrete
one-action session. -/
theorem claim_c9_witness :
    splitSemi (sampleSessionOne.to_csv_record.getD 4 ("")) =
      sampleSessionOne.actions.map Action.to_csv_string
    ∧ (splitSemi (sampleSessionOne.to_csv_record.getD 4 (""))).length =
        sampleSessionOne.actions.length :=
  claim_c9 sampleSessionOne (by decide) (by decide)

/-- Claim C1: on every tick taken while Monitoring, a key-set change
(order-sensitive exact-sequence comparison) appends exactly one
KeyPress carrying the full currently-held key set (possibly empty) with
its own timestamp read and updates the previous key set; independently,
a pointer-coordinate change appends exactly one PointerMove with the
new coordinates and its own timestamp read and updates the previous
coordinates; when both fire the KeyPress precedes the PointerMove in
the session's action order; a tick while Idle changes nothing. -/
theorem claim_c1 (s : ActivityMonitor) (inp : TickInput) :
    (s.is_monitoring = true →
      (s.update inp).current_session.actions =
        s.current_session.actions
          ++ (if inp.keys ≠ s.last_keys
              then [Action.KeyPress inp.keyTs inp.keys] else [])
          ++ (if inp.mouse ≠ s.last_mouse_pos
              then [Action.MouseMove inp.mouseTs inp.mouse] else [])
      ∧ (s.update inp).last_keys =
          (if inp.keys ≠ s.last_keys then inp.keys else s.last_keys)
      ∧ (s.update inp).last_mouse_pos =
          (if inp.mouse ≠ s.last_mouse_pos then inp.mouse
           else s.last_mouse_pos))
    ∧ (s.is_monitoring = false → s.update inp = s) := by
  constructor
  · intro hm
    refine ⟨?_, update_last_keys s inp hm, update_last_mouse_pos s inp hm⟩
    rw [update_current_session s inp hm]
  · exact update_not_monitoring s inp

/-- Claim C1 (witness): the tick postcondition evaluated on a concrete
Monitoring state and a concrete tick on which both checks fire. -/
theorem claim_c1_witness :
    (sampleMonitoring.update sampleTick).current_session.actions =
      sampleMonitoring.current_session.actions
        ++ (if sampleTick.keys ≠ sampleMonitoring.last_keys
            then [Action.KeyPress sampleTick.keyTs sampleTick.keys] else [])
        ++ (if sampleTick.mouse ≠ sampleMonitoring.last_mouse_pos
            then [Action.MouseMove sampleTick.mouseTs sampleTick.mouse]
            else [])
    ∧ (sampleMonitoring.update sampleTick).last_keys =
        (if sampleTick.keys ≠ sampleMonitoring.last_keys
         then sampleTick.keys else sampleMonitoring.last_keys)
    ∧ (sampleMonitoring.update sampleTick).last_mouse_pos =
        (if sampleTick.mouse ≠ sampleMonitoring.last_mouse_pos
         then sampleTick.mouse else sampleMonitoring.last_mouse_pos) :=
  (claim_c1 sampleMonitoring sampleTick).1 rfl

/-- Claim C3: a stop while Monitoring (with both sink calls
succeeding) clears the monitoring flag, sets the current session's end
time to the stop-time clock read, and appends exactly one 5-column row
to the summary sink, namely the session id, task name, start time, end
time (rendered through the same rule that renders an absent end time as
the empty string), and all action renderings joined with semicolon
separators; that row is exactly the summary record of the finalized
session. -/
theorem claim_c3 (s : ActivityMonitor) (now : String)
    (hm : s.is_monitoring = true) :
    (s.stop_monitoring now none none).is_monitoring = false
    ∧ (s.stop_monitoring now none none).current_session.end_time = some now
    ∧ (s.stop_monitoring now none none).summary_rows =
        s.summary_rows ++
          [[s.current_session.session_id, s.current_session.task_name,
            s.current_session.start_time, now,
            String.intercalate (";")
              (s.current_session.actions.map Action.to_csv_string)]]
    ∧ ({ s.current_session with end_time := some now }).to_csv_record =
        [s.current_session.session_id, s.current_session.task_name,
         s.current_session.start_time, now,
         String.intercalate (";")
           (s.current_session.actions.map Action.to_csv_string)] := by
  rw [stop_of_monitoring s now none none hm]
  refine ⟨stopPersist_is_monitoring s now none none, ?_, ?_, ?_⟩
  · show (s.stopPersist now none none).current_session.end_time = some now
    rw [stopPersist_current_session]
  · show (s.stopPersist now none none).summary_rows =
      s.summary_rows ++
        [[s.current_session.session_id, s.current_session.task_name,
          s.current_session.start_time, now,
          String.intercalate (";")
            (s.current_session.actions.map Action.to_csv_string)]]
    rw [stopPersist_summary_rows_ok]
    rfl
  · rfl

/-- Claim C3 (witness): the stop postcondition evaluated on a concrete
Monitoring state. -/
theorem claim_c3_witness :
    (sampleMonitoring.stop_monitoring ("te") none none).is_monitoring = false
    ∧ (sampleMonitoring.stop_monitoring ("te") none none).current_session.end_time
        = some "te"
    ∧ (sampleMonitoring.stop_monitoring ("te") none none).summary_rows =
        sampleMonitoring.summary_rows ++
          [[sampleMonitoring.current_session.session_id,
            sampleMonitoring.current_session.task_name,
            sampleMonitoring.current_session.start_time, "te",
            String.intercalate (";")
              (sampleMonitoring.current_session.actions.map
                Action.to_csv_string)]]
    ∧ ({ sampleMonitoring.current_session with
          end_time := some "te" }).to_csv_record =
        [sampleMonitoring.current_session.session_id,
         sampleMonitoring.current_session.task_name,
         sampleMonitoring.current_session.start_time, "te",
         String.intercalate (";")
           (sampleMonitoring.current_session.actions.map
             Action.to_csv_string)] :=
  claim_c3 sampleMonitoring ("te") rfl

/-- Claim C4 (counterexample): the `events_recorded` flag is never
reset by a session start, so after a first session that recorded a
keyboard event, a second session that records nothing still reports
that activities were recorded when it stops, although its own action
list is empty — the claim's per-session reading is false on this run. -/
theorem claim_c4_counterexample :
    (run (ActivityMonitor.new ("sid0") ("ts0")) twoSessionOps).status_text =
      "Monitoring stopped for task: beta. Activities were recorded."
    ∧ (run (ActivityMonitor.new ("sid0") ("ts0"))
        twoSessionOps).current_session.actions = [] := by
  constructor <;> decide

/-- Claim C4 (amended): the status message produced by a stop while
Monitoring reports that activities were recorded if and only if the
engine's `events_recorded` flag is set, and that flag is sticky across
sessions: it records whether any event has been recorded since engine
construction, because a session start never resets it. -/
theorem claim_c4_amended (s : ActivityMonitor) (now : String)
    (writeErr flushErr : Option String) (hm : s.is_monitoring = true) :
    ((s.stop_monitoring now writeErr flushErr).status_text =
      if s.events_recorded then
        "Monitoring stopped for task: " ++ s.task_name
          ++ ". Activities were recorded."
      else
        "Monitoring stopped for task: " ++ s.task_name
          ++ ". No activities were recorded.")
    ∧ (∀ (s2 : ActivityMonitor) (sid startTs : String),
        (s2.start_monitoring sid startTs).events_recorded =
          s2.events_recorded) := by
  constructor
  · rw [stop_of_monitoring s now writeErr flushErr hm]
  · intro s2 sid startTs
    unfold ActivityMonitor.start_monitoring
    cases hm2 : s2.is_monitoring <;>
      cases hb : isBlank s2.task_name <;> simp [hm2, hb]

/-- Claim C4 (witness): the amended stop-status rule evaluated on a
concrete Monitoring state with no events recorded. -/
theorem claim_c4_witness :
    ((sampleMonitoring.stop_monitoring ("te") none none).status_text =
      if sampleMonitoring.events_recorded then
        "Monitoring stopped for task: " ++ sampleMonitoring.task_name
          ++ ". Activities were recorded."
      else
        "Monitoring stopped for task: " ++ sampleMonitoring.task_name
          ++ ". No activities were recorded.")
    ∧ (∀ (s2 : ActivityMonitor) (sid startTs : String),
        (s2.start_monitoring sid startTs).events_recorded =
          s2.events_recorded) :=
  claim_c4_amended sampleMonitoring ("te") none none rfl

/-- Claim C5: on a tick whose detailed-sink serialize call for a
detected key action fails, the action is nonetheless present in the
current session's action list after the tick (in-memory mutations are
not rolled back), monitoring remains active, and the summary row
written by a later successful stop joins exactly the session's action
renderings — so it includes that action's rendering. -/
theorem claim_c5 (s : ActivityMonitor) (inp : TickInput) (e now : String)
    (hm : s.is_monitoring = true) (hk : inp.keys ≠ s.last_keys)
    (he : inp.keySerializeErr = some e) :
    Action.KeyPress inp.keyTs inp.keys ∈
      (s.update inp).current_session.actions
    ∧ (s.update inp).is_monitoring = true
    ∧ ((s.update inp).stop_monitoring now none none).summary_rows =
        (s.update inp).summary_rows ++
          [[(s.update inp).current_session.session_id,
            (s.update inp).current_session.task_name,
            (s.update inp).current_session.start_time, now,
            String.intercalate (";")
              ((s.update inp).current_session.actions.map
                Action.to_csv_string)]]
    ∧ Action.to_csv_string (Action.KeyPress inp.keyTs inp.keys) ∈
        (s.update inp).current_session.actions.map Action.to_csv_string := by
  have hmem : Action.KeyPress inp.keyTs inp.keys ∈
      (s.update inp).current_session.actions := by
    rw [update_current_session s inp hm]
    simp [hk]
  have hm1 : (s.update inp).is_monitoring = true := by
    rw [update_is_monitoring]; exact hm
  refine ⟨hmem, hm1, ?_, List.mem_map_of_mem Action.to_csv_string hmem⟩
  rw [stop_of_monitoring (s.update inp) now none none hm1]
  show ((s.update inp).stopPersist now none none).summary_rows = _
  rw [stopPersist_summary_rows_ok]
  rfl

/-- Claim C5 (witness): the failure-tolerance postcondition evaluated
on a concrete Monitoring state and a tick whose keyboard serialize call
fails. -/
theorem claim_c5_witness :
    Action.KeyPress sampleTickKeyFail.keyTs sampleTickKeyFail.keys ∈
      (sampleMonitoring.update sampleTickKeyFail).current_session.actions
    ∧ (sampleMonitoring.update sampleTickKeyFail).is_monitoring = true
    ∧ ((sampleMonitoring.update sampleTickKeyFail).stop_monitoring ("te")
          none none).summary_rows =
        (sampleMonitoring.update sampleTickKeyFail).summary_rows ++
          [[(sampleMonitoring.update
              sampleTickKeyFail).current_session.session_id,
            (sampleMonitoring.update
              sampleTickKeyFail).current_session.task_name,
            (sampleMonitoring.update
              sampleTickKeyFail).current_session.start_time, "te",
            String.intercalate (";")
              ((sampleMonitoring.update
                sampleTickKeyFail).current_session.actions.map
                Action.to_csv_string)]]
    ∧ Action.to_csv_string
        (Action.KeyPress sampleTickKeyFail.keyTs sampleTickKeyFail.keys) ∈
        (sampleMonitoring.update
          sampleTickKeyFail).current_session.actions.map
          Action.to_csv_string :=
  claim_c5 sampleMonitoring sampleTickKeyFail "disk full" ("te") rfl
    (by decide) rfl

/-- Claim C6 (counterexample): when the summary-sink write fails during
a stop while Monitoring, the error message written to `status_text` is
unconditionally overwritten by the final stop-summary message, so after
the stop returns `status_text` does not report the failure. -/
theorem claim_c6_counterexample :
    (sampleMonitoring.stop_monitoring ("te") (some "disk full")
        none).status_text =
      "Monitoring stopped for task: build. No activities were recorded."
    ∧ (sampleMonitoring.stop_monitoring ("te") (some "disk full")
        none).status_text ≠ "Error saving session: disk full" := by
  constructor <;> decide

/-- Claim C6 (amended): a write or serialize failure on the summary
sink during a stop is captured in `status_text` at the point it occurs
(the persist phase of the stop leaves the corresponding error message
in `status_text`), but before the stop returns that message is
overwritten by the final stop-summary message, so after the stop
returns `status_text` reports whether activities were recorded, not
the failure. -/
theorem claim_c6_amended (s : ActivityMonitor) (now e : String)
    (writeErr flushErr : Option String) (hm : s.is_monitoring = true) :
    ((s.stopPersist now (some e) none).status_text =
      "Error saving session: " ++ e)
    ∧ ((s.stopPersist now writeErr (some e)).status_text =
      "Error flushing session data: " ++ e)
    ∧ ((s.stop_monitoring now (some e) flushErr).status_text =
      if s.events_recorded then
        "Monitoring stopped for task: " ++ s.task_name
          ++ ". Activities were recorded."
      else
        "Monitoring stopped for task: " ++ s.task_name
          ++ ". No activities were recorded.") := by
  refine ⟨stopPersist_status_of_writeErr s now e,
    stopPersist_status_of_flushErr s now e writeErr, ?_⟩
  rw [stop_of_monitoring s now (some e) flushErr hm]

/-- Claim C6 (witness): the amended failure-reporting behaviour
evaluated on a concrete Monitoring state. -/
theorem claim_c6_witness :
    ((sampleMonitoring.stopPersist ("te") (some "disk full")
        none).status_text = "Error saving session: " ++ "disk full")
    ∧ ((sampleMonitoring.stopPersist ("te") none
        (some "disk full")).status_text =
      "Error flushing session data: " ++ "disk full")
    ∧ ((sampleMonitoring.stop_monitoring ("te") (some "disk full")
        none).status_text =
      if sampleMonitoring.events_recorded then
        "Monitoring stopped for task: " ++ sampleMonitoring.task_name
          ++ ". Activities were recorded."
      else
        "Monitoring stopped for task: " ++ sampleMonitoring.task_name
          ++ ". No activities were recorded.") :=
  claim_c6_amended sampleMonitoring ("te") "disk full" none none rfl

/-- Claim C7: the three user-input validation rejections mutate no
state other than `status_text`: a start with a blank (empty or
whitespace-only) task name, a start while already Monitoring, and a
stop while Idle each return the input state with only `status_text`
replaced — in particular the monitoring flag, the current session, the
detector snapshot and both sink contents are unchanged, a blank-name
start never transitions Idle to Monitoring, and a stop while Idle
writes nothing to either sink. -/
theorem claim_c7 (s : ActivityMonitor) (sid startTs now : String)
    (writeErr flushErr : Option String) :
    (s.is_monitoring = false → isBlank s.task_name = true →
      s.start_monitoring sid startTs =
        { s with status_text := "Please enter a task name first" })
    ∧ (s.is_monitoring = true →
      s.start_monitoring sid startTs =
        { s with status_text := "Already monitoring!" })
    ∧ (s.is_monitoring = false →
      s.stop_monitoring now writeErr flushErr =
        { s with status_text := "Monitoring is not running" }) :=
  ⟨fun hm hb => start_of_blank s sid startTs hm hb,
   fun hm => start_of_monitoring s sid startTs hm,
   fun hm => stop_of_idle s now writeErr flushErr hm⟩

/-- Claim C7 (witness): the three rejections evaluated on concrete
states — a freshly constructed engine with a blank task name, a
Monitoring state, and an Idle state between sessions. -/
theorem claim_c7_witness :
    ((ActivityMonitor.new ("sid0") ("ts0")).start_monitoring ("s1") ("t1") =
      { ActivityMonitor.new ("sid0") ("ts0") with
        status_text := "Please enter a task name first" })
    ∧ (sampleMonitoring.start_monitoring ("s1") ("t1") =
      { sampleMonitoring with status_text := "Already monitoring!" })
    ∧ (sampleIdle.stop_monitoring ("te") none none =
      { sampleIdle with status_text := "Monitoring is not running" }) :=
  ⟨(claim_c7 (ActivityMonitor.new ("sid0") ("ts0")) ("s1") ("t1") ("te")
      none none).1 rfl rfl,
   (claim_c7 sampleMonitoring ("s1") ("t1") ("te") none none).2.1 rfl,
   (claim_c7 sampleIdle ("s1") ("t1") ("te") none none).2.2 rfl⟩

/-- Claim C8: a successful start truncates the detailed sink to empty,
and after any following sequence of operations containing no further
start, the detailed sink holds exactly the detailed-event rows produced
since that start — never any row from a prior session. -/
theorem claim_c8 (s : ActivityMonitor) (sid startTs : String)
    (ops : List Op) (hm : s.is_monitoring = false)
    (hb : isBlank s.task_name = false)
    (hops : ∀ op ∈ ops, op.isStart = false) :
    (s.start_monitoring sid startTs).detailed_rows = []
    ∧ (run (s.start_monitoring sid startTs) ops).detailed_rows =
        producedRows (s.start_monitoring sid startTs) ops := by
  have h0 : (s.start_monitoring sid startTs).detailed_rows = [] := by
    rw [start_success s sid startTs hm hb]
  refine ⟨h0, ?_⟩
  rw [run_detailed_rows_of_no_start ops _ hops, h0, List.nil_append]

/-- Claim C8 (witness): the truncation-and-ownership property evaluated
on a concrete Idle state carrying a leftover detailed row, for a start
followed by one tick. -/
theorem claim_c8_witness :
    (sampleIdle.start_monitoring ("sidN") ("tsN")).detailed_rows = []
    ∧ (run (sampleIdle.start_monitoring ("sidN") ("tsN"))
        [Op.tick sampleTick]).detailed_rows =
        producedRows (sampleIdle.start_monitoring ("sidN") ("tsN"))
          [Op.tick sampleTick] :=
  claim_c8 sampleIdle ("sidN") ("tsN") [Op.tick sampleTick] rfl
    (by decide) (by decide)

/-- Claim C10: a successful start does not reset the change detector's
previous-state snapshot — `last_keys` and `last_mouse_pos` keep the
values they had before the start (and a freshly constructed engine
holds the defaults of an empty key list and coordinates (0,0)) — so the
first tick of a new session compares the fresh sample against the
carried-over snapshot, not against a baseline taken at session start. -/
theorem claim_c10 (s : ActivityMonitor) (sid startTs sid0 ts0 : String) :
    ((s.start_monitoring sid startTs).last_keys = s.last_keys
      ∧ (s.start_monitoring sid startTs).last_mouse_pos = s.last_mouse_pos)
    ∧ ((ActivityMonitor.new sid0 ts0).last_keys = []
      ∧ (ActivityMonitor.new sid0 ts0).last_mouse_pos = (0, 0))
    ∧ (s.is_monitoring = false → isBlank s.task_name = false →
        ∀ inp : TickInput,
          ((s.start_monitoring sid startTs).update
              inp).current_session.actions =
            (if inp.keys ≠ s.last_keys
             then [Action.KeyPress inp.keyTs inp.keys] else [])
              ++ (if inp.mouse ≠ s.last_mouse_pos
                  then [Action.MouseMove inp.mouseTs inp.mouse] else [])) := by
  refine ⟨?_, ⟨rfl, rfl⟩, ?_⟩
  · unfold ActivityMonitor.start_monitoring
    cases hm : s.is_monitoring <;>
      cases hb : isBlank s.task_name <;> simp [hm, hb]
  · intro hm hb inp
    rw [start_success s sid startTs hm hb]
    rw [update_current_session _ inp rfl]
    simp

/-- Claim C10 (witness): the carried-over-snapshot behaviour evaluated
on a concrete Idle state between sessions whose snapshot holds the
previous session's last sample. -/
theorem claim_c10_witness :
    ((sampleIdle.start_monitoring ("sidN") ("tsN")).last_keys =
        sampleIdle.last_keys
      ∧ (sampleIdle.start_monitoring ("sidN") ("tsN")).last_mouse_pos =
        sampleIdle.last_mouse_pos)
    ∧ ((ActivityMonitor.new ("sid0") ("ts0")).last_keys = []
      ∧ (ActivityMonitor.new ("sid0") ("ts0")).last_mouse_pos = (0, 0))
    ∧ ((sampleIdle.start_monitoring ("sidN") ("tsN")).update
          sampleTick).current_session.actions =
        (if sampleTick.keys ≠ sampleIdle.last_keys
         then [Action.KeyPress sampleTick.keyTs sampleTick.keys] else [])
          ++ (if sampleTick.mouse ≠ sampleIdle.last_mouse_pos
              then [Action.MouseMove sampleTick.mouseTs sampleTick.mouse]
              else []) :=
  ⟨(claim_c10 sampleIdle ("sidN") ("tsN") ("sid0") ("ts0")).1,
   (claim_c10 sampleIdle ("sidN") ("tsN") ("sid0") ("ts0")).2.1,
   (claim_c10 sampleIdle ("sidN") ("tsN") ("sid0") ("ts0")).2.2 rfl
     (by decide) sampleTick⟩

end DesktopApp
